import Mathlib

/-!
Verification of the layered configuration resolver in `metagpt/config.py`.

The module under verification builds a flat key-value store by merging, in
order, the process environment, a primary YAML file, a fixed secondary
("key") YAML file, and an optional caller-supplied override mapping; it then
resolves named fields with defaults, validates credentials, and exposes a
`get` accessor and a `runtime_options` snapshot.

The embedding below is a shallow one: Python dictionaries become association
lists with Python `dict` update semantics (assignment replaces the value of
an existing key in place, otherwise appends); Python values become the
inductive `Value` (with `Value.none` for Python `None`); exceptions become
`Except`; the process-wide mutation of the `openai` module's attributes
becomes explicit state passing of an `OpenAIGlobal` record.
-/

namespace MetaGPTConfig

/-- Search-engine enumeration referenced by `config.py` as `SearchEngineType`.
Modelled from the spec: the enum itself lives in `metagpt/tools`, which is not
part of the sources; the spec describes it as a fixed small set of known
string values, with `SERPAPI_GOOGLE` (the default used in `config.py`) among
its members. -/
inductive SearchEngineType
  | serpapiGoogle
  | serperGoogle
  | directGoogle
  | duckDuckGo
  | customEngine
deriving DecidableEq

/-- Web-browser-engine enumeration referenced by `config.py` as
`WebBrowserEngineType`. Modelled from the spec: the enum lives in
`metagpt/tools`, outside the sources; `PLAYWRIGHT` (the default used in
`config.py`) is among its members. -/
inductive WebBrowserEngineType
  | playwright
  | selenium
  | custom
deriving DecidableEq

/-- A Python runtime value as it can appear in the merged configuration
store or in a resolved field: `none` is Python `None`, the numeric cases
keep `int` and `float` apart, and the two enum cases embed enum instances
(the resolved `search_engine` / `web_browser_engine` fields hold these). -/
inductive Value
  | none
  | str (s : String)
  | int (n : Int)
  | float (q : ℚ)
  | bool (b : Bool)
  | searchEngine (e : SearchEngineType)
  | browserEngine (e : WebBrowserEngineType)
deriving DecidableEq

/-- Python truthiness (`bool(v)`) for the embedded values: `None`, the empty
string, numeric zero and `False` are falsy; enum instances are truthy. -/
def pyTruthy : Value → Bool
  | .none => false
  | .str s => decide (s ≠ "")
  | .int n => decide (n ≠ 0)
  | .float q => decide (q ≠ 0)
  | .bool b => b
  | .searchEngine _ => true
  | .browserEngine _ => true

/-- Python `a or b`: returns `a` when `a` is truthy, else `b`. -/
def pyOr (a b : Value) : Value :=
  if pyTruthy a then a else b

/-- A Python `dict` with string keys, embedded as an association list whose
key order is insertion order. All store values are built through `insert`,
which preserves Python's semantics: an existing key keeps its position and
has its value replaced, a new key is appended at the end. -/
def Dict : Type := List (String × Value)

instance : DecidableEq Dict :=
  inferInstanceAs (DecidableEq (List (String × Value)))

/-- The empty dictionary (`{}`). -/
def Dict.empty : Dict := []

/-- Assignment `d[k] = v`: replace in place when the key exists, else append. -/
def Dict.insert : Dict → String → Value → Dict
  | [], k, v => [(k, v)]
  | (k₀, v₀) :: rest, k, v =>
      if k₀ = k then (k₀, v) :: rest
      else (k₀, v₀) :: Dict.insert rest k v

/-- Lookup of a key: `some v` when present, `Option.none` when absent. -/
def Dict.get? : Dict → String → Option Value
  | [], _ => Option.none
  | (k₀, v₀) :: rest, k => if k₀ = k then some v₀ else Dict.get? rest k

/-- Python `d.get(k)`: `None` when the key is absent, else the stored value
(which may itself be `None`). -/
def Dict.pyGet (d : Dict) (k : String) : Value :=
  (d.get? k).getD Value.none

/-- Python `d.get(k, default)`: the default applies only when the key is
absent; a key present with value `None` still yields `None`. -/
def Dict.pyGetD (d : Dict) (k : String) (default : Value) : Value :=
  (d.get? k).getD default

/-- Python `d.update(es)`: assign each pair of `es`, in order, into `d`. -/
def Dict.updateList : Dict → List (String × Value) → Dict
  | d, [] => d
  | d, (k, v) :: rest => Dict.updateList (d.insert k v) rest

/-- The value the last assignment of `es` leaves for key `k`, when `es`
assigns `k` at all: the rightmost pair of `es` whose key is `k`. -/
def lastVal : List (String × Value) → String → Option Value
  | [], _ => Option.none
  | (k₀, v₀) :: rest, k =>
      match lastVal rest k with
      | some v => some v
      | Option.none => if k₀ = k then some v₀ else Option.none

/-- The state of a YAML file on disk, as `config.py` can observe it: the
path does not exist; the file exists but `yaml.safe_load` raises a parse
error; or the file parses to a flat mapping (an empty list embeds both an
empty document and one that parses to `None`, which are equally falsy). -/
inductive FileData
  | absent
  | malformed
  | yaml (entries : List (String × Value))
deriving DecidableEq

/-- Everything that can abort construction: an uncaught YAML parse error
from `yaml.safe_load`, the `NotConfiguredException` raised when both
credentials are missing, and the `ValueError` raised by the two enum
coercions on an unrecognized value. -/
inductive CfgError
  | yamlScanError
  | notConfigured
  | invalidSearchEngine (v : Value)
  | invalidWebBrowserEngine (v : Value)
deriving DecidableEq

/-- The error raised by the public accessor `Config.get`. -/
inductive GetErr
  | keyNotFound (key : String)
deriving DecidableEq

/-- The process-wide attributes of the `openai` module that `_parse`
mutates: `openai.proxy` and `openai.api_base`. -/
structure OpenAIGlobal where
  proxy : Value
  api_base : Value
deriving DecidableEq

/-- Test `not v or "YOUR_API_KEY" == v`: the credential test applied by `_parse`
to each of `OPENAI_API_KEY` and `Anthropic_API_KEY`. -/
def credAbsent (v : Value) : Bool :=
  !pyTruthy v || decide (v = Value.str "YOUR_API_KEY")

/-- Coercion `SearchEngineType(v)` on a store value: an enum instance passes
through; a string must equal one of the members' values. Modelled from the
spec for the member strings (the enum is outside the sources). -/
def coerceSearchEngineValue (v : Value) : Except CfgError SearchEngineType :=
  match v with
  | .searchEngine e => .ok e
  | .str "serpapi" => .ok .serpapiGoogle
  | .str "serper" => .ok .serperGoogle
  | .str "google" => .ok .directGoogle
  | .str "ddg" => .ok .duckDuckGo
  | .str "custom" => .ok .customEngine
  | _ => .error (.invalidSearchEngine v)

/-- Resolution `SearchEngineType(self._get("SEARCH_ENGINE", SearchEngineType.SERPAPI_GOOGLE))`:
when the key is absent `dict.get` yields the default enum instance, which the
enum constructor returns unchanged; otherwise the stored value is coerced. -/
def coerceSearchEngine : Option Value → Except CfgError SearchEngineType
  | Option.none => .ok .serpapiGoogle
  | some v => coerceSearchEngineValue v

/-- Whether `v` is an acceptable argument to `SearchEngineType(...)`. -/
def validSearchValue (v : Value) : Bool :=
  match coerceSearchEngineValue v with
  | .ok _ => true
  | .error _ => false

/-- Coercion `WebBrowserEngineType(v)` on a store value. Modelled from the
spec for the member strings (the enum is outside the sources). -/
def coerceWebBrowserEngineValue (v : Value) : Except CfgError WebBrowserEngineType :=
  match v with
  | .browserEngine e => .ok e
  | .str "playwright" => .ok .playwright
  | .str "selenium" => .ok .selenium
  | .str "custom" => .ok .custom
  | _ => .error (.invalidWebBrowserEngine v)

/-- Resolution `WebBrowserEngineType(self._get("WEB_BROWSER_ENGINE", WebBrowserEngineType.PLAYWRIGHT))`,
analogous to the search-engine case. -/
def coerceWebBrowserEngine : Option Value → Except CfgError WebBrowserEngineType
  | Option.none => .ok .playwright
  | some v => coerceWebBrowserEngineValue v

/-- Whether `v` is an acceptable argument to `WebBrowserEngineType(...)`. -/
def validBrowserValue (v : Value) : Bool :=
  match coerceWebBrowserEngineValue v with
  | .ok _ => true
  | .error _ => false

/-- The `Config` object after a successful construction: `configs` is the
raw merged store `self._configs`, the remaining fields are the named
attributes assigned by `_parse`, in the source's assignment order. -/
structure Config where
  configs : Dict
  global_proxy : Value
  openai_api_key : Value
  anthropic_api_key : Value
  openai_api_base : Value
  openai_api_type : Value
  openai_api_version : Value
  openai_api_rpm : Value
  openai_api_model : Value
  max_tokens_rsp : Value
  deployment_id : Value
  claude_api_key : Value
  serpapi_api_key : Value
  serper_api_key : Value
  google_api_key : Value
  google_cse_id : Value
  search_engine : Value
  web_browser_engine : Value
  playwright_browser_type : Value
  selenium_browser_type : Value
  long_term_memory : Value
  max_budget : Value
  total_cost : Value
  puppeteer_config : Value
  mmdc : Value
  calc_usage : Value
  model_for_researcher_summary : Value
  model_for_researcher_report : Value
deriving DecidableEq

/-- The record `_parse` builds once both enum coercions have succeeded:
each field is the corresponding `self._get(...)` lookup of the source, with
the source's defaults. -/
def mkConfig (store : Dict) (se : SearchEngineType) (we : WebBrowserEngineType) : Config :=
  { configs := store
    global_proxy := store.pyGet "GLOBAL_PROXY"
    openai_api_key := store.pyGet "OPENAI_API_KEY"
    anthropic_api_key := store.pyGet "Anthropic_API_KEY"
    openai_api_base := store.pyGet "OPENAI_API_BASE"
    openai_api_type := store.pyGet "OPENAI_API_TYPE"
    openai_api_version := store.pyGet "OPENAI_API_VERSION"
    openai_api_rpm := store.pyGetD "RPM" (Value.int 3)
    openai_api_model := store.pyGetD "OPENAI_API_MODEL" (Value.str "gpt-4")
    max_tokens_rsp := store.pyGetD "MAX_TOKENS" (Value.int 2048)
    deployment_id := store.pyGet "DEPLOYMENT_ID"
    claude_api_key := store.pyGet "Anthropic_API_KEY"
    serpapi_api_key := store.pyGet "SERPAPI_API_KEY"
    serper_api_key := store.pyGet "SERPER_API_KEY"
    google_api_key := store.pyGet "GOOGLE_API_KEY"
    google_cse_id := store.pyGet "GOOGLE_CSE_ID"
    search_engine := Value.searchEngine se
    web_browser_engine := Value.browserEngine we
    playwright_browser_type := store.pyGetD "PLAYWRIGHT_BROWSER_TYPE" (Value.str "chromium")
    selenium_browser_type := store.pyGetD "SELENIUM_BROWSER_TYPE" (Value.str "chrome")
    long_term_memory := store.pyGetD "LONG_TERM_MEMORY" (Value.bool false)
    max_budget := store.pyGetD "MAX_BUDGET" (Value.float 10)
    total_cost := Value.float 0
    puppeteer_config := store.pyGetD "PUPPETEER_CONFIG" (Value.str "")
    mmdc := store.pyGetD "MMDC" (Value.str "mmdc")
    calc_usage := store.pyGetD "CALC_USAGE" (Value.bool true)
    model_for_researcher_summary := store.pyGet "MODEL_FOR_RESEARCHER_SUMMARY"
    model_for_researcher_report := store.pyGet "MODEL_FOR_RESEARCHER_REPORT" }

/-- Resolution `OPENAI_PROXY or self.global_proxy`: the proxy value `_parse` resolves
before deciding whether to mutate the `openai` module. -/
def resolvedProxy (store : Dict) : Value :=
  pyOr (store.pyGet "OPENAI_PROXY") (store.pyGet "GLOBAL_PROXY")

/-- Parse step `Config._parse`, as explicit state passing over the `openai` module
attributes: raise `NotConfiguredException` when both credentials are missing
or placeholders; conditionally mutate the proxy/base globals; coerce the two
engine enums (each can raise); finally populate every named field.
The `logger` calls of the source carry no data and are not modelled. -/
def _parse (store : Dict) (g : OpenAIGlobal) : Except CfgError (Config × OpenAIGlobal) :=
  if credAbsent (store.pyGet "OPENAI_API_KEY") && credAbsent (store.pyGet "Anthropic_API_KEY") then
    .error .notConfigured
  else
    let g' :=
      if pyTruthy (resolvedProxy store) then
        { proxy := resolvedProxy store, api_base := store.pyGet "OPENAI_API_BASE" }
      else g
    match coerceSearchEngine (store.get? "SEARCH_ENGINE") with
    | .error e => .error e
    | .ok se =>
        match coerceWebBrowserEngine (store.get? "WEB_BROWSER_ENGINE") with
        | .error e => .error e
        | .ok we => .ok (mkConfig store se we, g')

/-- One iteration of the file loop in `_init_with_config_files_and_env`:
a missing path is skipped, `yaml.safe_load` raising propagates (there is no
handler in the source), a falsy (empty) document is skipped, and otherwise
the parsed mapping is assigned into the store pair by pair. -/
def mergeYaml (s : Dict) : FileData → Except CfgError Dict
  | .absent => .ok s
  | .malformed => .error .yamlScanError
  | .yaml es => if es.isEmpty then .ok s else .ok (s.updateList es)

/-- Store building `Config._init_with_config_files_and_env`: merge `os.environ` into the
empty store, then the primary YAML file, then the fixed key YAML file; a
YAML parse error from either file propagates. -/
def _init_with_config_files_and_env (env : List (String × Value))
    (yaml_file key_yaml_file : FileData) : Except CfgError Dict :=
  match mergeYaml (Dict.empty.updateList env) yaml_file with
  | .error e => .error e
  | .ok s => mergeYaml s key_yaml_file

/-- Constructor `Config.__init__`: build the store from environment and files, merge the
`options` override map last when it is truthy (a non-empty dict), then run
`_parse`. -/
def construct (env : List (String × Value)) (yaml_file key_yaml_file : FileData)
    (options : List (String × Value)) (g : OpenAIGlobal) :
    Except CfgError (Config × OpenAIGlobal) :=
  match _init_with_config_files_and_env env yaml_file key_yaml_file with
  | .error e => .error e
  | .ok s => _parse (if options.isEmpty then s else s.updateList options) g

/-- The constructed `Config` of a successful construction, when any. -/
def constructCfg (env : List (String × Value)) (yaml_file key_yaml_file : FileData)
    (options : List (String × Value)) (g : OpenAIGlobal) : Option Config :=
  (construct env yaml_file key_yaml_file options g).toOption.map Prod.fst

/-- The `openai` module state a successful construction leaves behind. -/
def constructGlobal (env : List (String × Value)) (yaml_file key_yaml_file : FileData)
    (options : List (String × Value)) (g : OpenAIGlobal) : Option OpenAIGlobal :=
  (construct env yaml_file key_yaml_file options g).toOption.map Prod.snd

/-- Whether construction succeeds. -/
def constructOk (env : List (String × Value)) (yaml_file key_yaml_file : FileData)
    (options : List (String × Value)) (g : OpenAIGlobal) : Bool :=
  match construct env yaml_file key_yaml_file options g with
  | .ok _ => true
  | .error _ => false

/-- Accessor `Config.get(key)` with no default: `self._configs.get(key)` is `None` both
for an absent key and for a key stored with value `None`; in either case a
`ValueError` is raised, otherwise the raw value is returned. -/
def Config.get (c : Config) (k : String) : Except GetErr Value :=
  let v := c.configs.pyGet k
  if v = Value.none then .error (.keyNotFound k) else .ok v

/-- Accessor `Config.get(key, default)`: the default flows through `dict.get`, after
which the same `None` check as in `Config.get` decides whether to raise. -/
def Config.getD (c : Config) (k : String) (d : Value) : Except GetErr Value :=
  let v := c.configs.pyGetD k d
  if v = Value.none then .error (.keyNotFound k) else .ok v

/-- The `(attribute, value)` pairs of `vars(self)` in attribute insertion
order, minus the `"_configs"` entry that the `runtime_options` loop skips
(`_configs` is assigned first in `__init__`, before every named field). -/
def varsList (c : Config) : List (String × Value) :=
  [("global_proxy", c.global_proxy),
   ("openai_api_key", c.openai_api_key),
   ("anthropic_api_key", c.anthropic_api_key),
   ("openai_api_base", c.openai_api_base),
   ("openai_api_type", c.openai_api_type),
   ("openai_api_version", c.openai_api_version),
   ("openai_api_rpm", c.openai_api_rpm),
   ("openai_api_model", c.openai_api_model),
   ("max_tokens_rsp", c.max_tokens_rsp),
   ("deployment_id", c.deployment_id),
   ("claude_api_key", c.claude_api_key),
   ("serpapi_api_key", c.serpapi_api_key),
   ("serper_api_key", c.serper_api_key),
   ("google_api_key", c.google_api_key),
   ("google_cse_id", c.google_cse_id),
   ("search_engine", c.search_engine),
   ("web_browser_engine", c.web_browser_engine),
   ("playwright_browser_type", c.playwright_browser_type),
   ("selenium_browser_type", c.selenium_browser_type),
   ("long_term_memory", c.long_term_memory),
   ("max_budget", c.max_budget),
   ("total_cost", c.total_cost),
   ("puppeteer_config", c.puppeteer_config),
   ("mmdc", c.mmdc),
   ("calc_usage", c.calc_usage),
   ("model_for_researcher_summary", c.model_for_researcher_summary),
   ("model_for_researcher_report", c.model_for_researcher_report)]

/-- Snapshot `Config.runtime_options`: a fresh dict built by copying every entry of
`self._configs` and then assigning every named attribute over it (skipping
`_configs` itself), so named fields win on a shared name. -/
def Config.runtime_options (c : Config) : Dict :=
  c.configs.updateList (varsList c)

/-- A fixed initial `openai` module state for the concrete scenarios. -/
def g0 : OpenAIGlobal := { proxy := Value.none, api_base := Value.none }

/-- The keys a file state can contribute to the store. -/
def FileData.keys : FileData → List String
  | .yaml es => es.map Prod.fst
  | _ => []

/-- Merged store of the concrete override scenario: environment providing a
credential and `K`, with `K` overridden to `"ov"` by the options map. -/
def c1store : Dict := [("OPENAI_API_KEY", Value.str "sk"), ("K", Value.str "ov")]

/-- Merged store of the concrete two-YAML scenario: the primary file set
`K` to `"a"`, the key file overwrote it with `"b"`. -/
def c2store : Dict := [("OPENAI_API_KEY", Value.str "sk"), ("K", Value.str "b")]

/-- A config whose merged store holds exactly one credential. -/
def c4cfg : Config :=
  mkConfig [("OPENAI_API_KEY", Value.str "sk")] .serpapiGoogle .playwright

/-- A config used to evaluate the `runtime_options` snapshot concretely. -/
def c6cfg : Config :=
  mkConfig [("OPENAI_API_KEY", Value.str "sk")] .serpapiGoogle .playwright

/-- A store resolving an explicit `OPENAI_PROXY`. -/
def c8store : Dict := [("OPENAI_API_KEY", Value.str "sk"), ("OPENAI_PROXY", Value.str "p")]

/-- A config whose merged store maps `NULLKEY` to Python `None`. -/
def c9cfg : Config :=
  mkConfig [("OPENAI_API_KEY", Value.str "sk"), ("NULLKEY", Value.none)]
    .serpapiGoogle .playwright

/-- Lookup after a single Python-style assignment. -/
theorem Dict.get?_insert (d : Dict) (k k' : String) (v : Value) :
    (d.insert k v).get? k' = if k = k' then some v else d.get? k' := by
  induction d with
  | nil => simp only [Dict.insert, Dict.get?]
  | cons hd tl ih =>
      obtain ⟨k₀, v₀⟩ := hd
      by_cases h₀ : k₀ = k
      · subst h₀
        by_cases h' : k₀ = k'
        · subst h'
          simp [Dict.insert, Dict.get?]
        · simp [Dict.insert, Dict.get?, h']
      · by_cases h' : k₀ = k'
        · subst h'
          simp [Dict.insert, Dict.get?, h₀, Ne.symm h₀]
        · simp [Dict.insert, Dict.get?, h₀, h', ih]

/-- Lookup after a sequence of assignments: the last assignment of the key
wins, and a key never assigned falls through to the original dictionary. -/
theorem Dict.get?_updateList (d : Dict) (es : List (String × Value)) (k : String) :
    (d.updateList es).get? k =
      match lastVal es k with
      | some v => some v
      | Option.none => d.get? k := by
  induction es generalizing d with
  | nil => simp [Dict.updateList, lastVal]
  | cons hd tl ih =>
      obtain ⟨k₀, v₀⟩ := hd
      rw [show Dict.updateList d ((k₀, v₀) :: tl) = Dict.updateList (d.insert k₀ v₀) tl from rfl]
      rw [ih]
      cases h : lastVal tl k with
      | some v => simp [lastVal, h]
      | none =>
          simp only [lastVal, h, Dict.get?_insert]
          by_cases hk : k₀ = k
          · subst hk; simp
          · simp [hk]

/-- A key not assigned by a list of pairs has no last assignment. -/
theorem lastVal_of_not_mem (es : List (String × Value)) (k : String)
    (h : k ∉ es.map Prod.fst) : lastVal es k = Option.none := by
  induction es with
  | nil => rfl
  | cons hd tl ih =>
      obtain ⟨k₀, v₀⟩ := hd
      simp only [List.map, List.mem_cons, not_or] at h
      simp [lastVal, ih h.2, Ne.symm h.1]

/-- With pairwise-distinct keys, membership determines the last assignment. -/
theorem lastVal_of_mem (es : List (String × Value)) (k : String) (v : Value)
    (hnd : (es.map Prod.fst).Nodup) (hmem : (k, v) ∈ es) : lastVal es k = some v := by
  induction es with
  | nil => cases hmem
  | cons hd tl ih =>
      obtain ⟨k₀, v₀⟩ := hd
      simp only [List.map, List.nodup_cons] at hnd
      rcases List.mem_cons.mp hmem with heq | htl
      · obtain ⟨rfl, rfl⟩ := Prod.mk.injEq .. ▸ heq
        have : k ∉ tl.map Prod.fst := by
          simpa using hnd.1
        simp [lastVal, lastVal_of_not_mem tl k this]
      · have := ih hnd.2 htl
        simp [lastVal, this]

/-- Anything a successful `_parse` returns: the config is `mkConfig` of the
store (so in particular `configs` is the store), and the returned global
state is the conditional proxy mutation. -/
theorem _parse_ok_elim (store : Dict) (g : OpenAIGlobal) (c : Config) (g' : OpenAIGlobal)
    (h : _parse store g = .ok (c, g')) :
    (∃ se we, c = mkConfig store se we) ∧
      c.configs = store ∧
      g' = (if pyTruthy (resolvedProxy store) then
              ({ proxy := resolvedProxy store,
                 api_base := store.pyGet "OPENAI_API_BASE" } : OpenAIGlobal)
            else g) := by
  simp only [_parse] at h
  split at h
  · cases h
  · split at h
    · cases h
    · split at h
      · cases h
      · injection h with hpair
        rw [Prod.ext_iff] at hpair
        obtain ⟨hc, hg⟩ := hpair
        subst hc
        subst hg
        exact ⟨⟨_, _, rfl⟩, rfl, rfl⟩

/-- A search-engine coercion can only fail with its own error. -/
theorem coerceSearchEngineValue_error (v : Value) (e : CfgError)
    (h : coerceSearchEngineValue v = .error e) : e = .invalidSearchEngine v := by
  unfold coerceSearchEngineValue at h
  split at h <;> simp_all

/-- A web-browser coercion can only fail with its own error. -/
theorem coerceWebBrowserEngineValue_error (v : Value) (e : CfgError)
    (h : coerceWebBrowserEngineValue v = .error e) : e = .invalidWebBrowserEngine v := by
  unfold coerceWebBrowserEngineValue at h
  split at h <;> simp_all

/-- An invalid value makes the search-engine coercion fail. -/
theorem coerceSearchEngineValue_of_invalid (v : Value) (h : validSearchValue v = false) :
    coerceSearchEngineValue v = .error (.invalidSearchEngine v) := by
  unfold validSearchValue at h
  split at h
  · cases h
  · rename_i e he
    rw [he, coerceSearchEngineValue_error v e he]

/-- An invalid value makes the web-browser coercion fail. -/
theorem coerceWebBrowserEngineValue_of_invalid (v : Value) (h : validBrowserValue v = false) :
    coerceWebBrowserEngineValue v = .error (.invalidWebBrowserEngine v) := by
  unfold validBrowserValue at h
  split at h
  · cases h
  · rename_i e he
    rw [he, coerceWebBrowserEngineValue_error v e he]

/-- Splitting a successful construction into its store-building and parse
phases. -/
theorem construct_ok_elim (env : List (String × Value)) (f1 f2 : FileData)
    (opts : List (String × Value)) (g : OpenAIGlobal) (c : Config) (g' : OpenAIGlobal)
    (h : construct env f1 f2 opts g = .ok (c, g')) :
    ∃ s, _init_with_config_files_and_env env f1 f2 = .ok s ∧
      _parse (if opts.isEmpty then s else s.updateList opts) g = .ok (c, g') := by
  unfold construct at h
  cases hinit : _init_with_config_files_and_env env f1 f2 with
  | error e => rw [hinit] at h; cases h
  | ok s =>
      rw [hinit] at h
      exact ⟨s, rfl, h⟩

/-- Splitting a successful store build into its two file merges. -/
theorem init_ok_elim (env : List (String × Value)) (f1 f2 : FileData) (s : Dict)
    (h : _init_with_config_files_and_env env f1 f2 = .ok s) :
    ∃ s1, mergeYaml (Dict.empty.updateList env) f1 = .ok s1 ∧ mergeYaml s1 f2 = .ok s := by
  unfold _init_with_config_files_and_env at h
  cases h1 : mergeYaml (Dict.empty.updateList env) f1 with
  | error e => rw [h1] at h; cases h
  | ok s1 =>
      rw [h1] at h
      exact ⟨s1, rfl, h⟩

/-- Merging a file that does not mention a key leaves that key's lookup
unchanged. -/
theorem mergeYaml_get?_of_not_mem (s s' : Dict) (f : FileData) (k : String)
    (h : mergeYaml s f = .ok s') (hk : k ∉ f.keys) : s'.get? k = s.get? k := by
  cases f with
  | absent => cases h; rfl
  | malformed => cases h
  | yaml es =>
      simp only [mergeYaml] at h
      split at h
      · cases h; rfl
      · cases h
        rw [Dict.get?_updateList, lastVal_of_not_mem es k hk]


/-- The search-engine coercion never produces the credentials error. -/
theorem coerceSearchEngine_ne_notConfigured (o : Option Value) :
    coerceSearchEngine o ≠ .error .notConfigured := by
  intro h
  cases o with
  | none => cases h
  | some v =>
      have := coerceSearchEngineValue_error v _ h
      cases this

/-- The web-browser coercion never produces the credentials error. -/
theorem coerceWebBrowserEngine_ne_notConfigured (o : Option Value) :
    coerceWebBrowserEngine o ≠ .error .notConfigured := by
  intro h
  cases o with
  | none => cases h
  | some v =>
      have := coerceWebBrowserEngineValue_error v _ h
      cases this

/-- C1 counterexample: with the environment providing `K = "x"` and the
override map providing `K = None`, the override does win the merge (the
store maps `K` to `None`), but `get("K")` raises the key-not-found error
instead of returning the override value, refuting the claim as stated. -/
theorem override_null_value_get_raises :
    (constructCfg [("OPENAI_API_KEY", Value.str "sk"), ("K", Value.str "x")] .absent .absent
        [("K", Value.none)] g0).map (fun c => (c.configs.get? "K", c.get "K")) =
      some (some Value.none, .error (.keyNotFound "K")) := by
  rfl

/-- C1 (amended): for every key `K` of the override map whose override value
is not `None`, `get(K)` after a successful construction returns the override
value, whatever the environment and the two YAML files said for `K`. -/
theorem override_highest_priority_get (env : List (String × Value)) (f1 f2 : FileData)
    (opts : List (String × Value)) (g : OpenAIGlobal) (k : String) (v : Value)
    (c : Config) (g' : OpenAIGlobal)
    (hnd : (opts.map Prod.fst).Nodup) (hmem : (k, v) ∈ opts) (hv : v ≠ Value.none)
    (h : construct env f1 f2 opts g = .ok (c, g')) :
    c.get k = .ok v := by
  obtain ⟨s, hinit, hparse⟩ := construct_ok_elim env f1 f2 opts g c g' h
  obtain ⟨_, hconf, _⟩ := _parse_ok_elim _ _ _ _ hparse
  have hne : opts.isEmpty = false := by
    cases opts
    · cases hmem
    · rfl
  rw [hne] at hconf
  simp only [Bool.false_eq_true, if_false] at hconf
  have hlook : c.configs.get? k = some v := by
    rw [hconf, Dict.get?_updateList, lastVal_of_mem opts k v hnd hmem]
  simp [Config.get, Dict.pyGet, hlook, hv]

/-- C1 witness: environment `K = "envv"`, override `K = "ov"`: the
constructed config's `get("K")` returns `"ov"`. -/
theorem override_highest_priority_get_witness :
    Config.get (mkConfig c1store .serpapiGoogle .playwright) "K" = .ok (Value.str "ov") :=
  override_highest_priority_get
    [("OPENAI_API_KEY", Value.str "sk"), ("K", Value.str "envv")] .absent .absent
    [("K", Value.str "ov")] g0 "K" (Value.str "ov")
    (mkConfig c1store .serpapiGoogle .playwright) g0
    (by decide) (by decide) (by decide) (by rfl)

/-- C2 counterexample: `K` is present in both YAML files and the secondary
(key) file's value does win the merge, but that value is `None`, so `get("K")`
raises instead of returning it, refuting the claim as stated. -/
theorem key_yaml_null_value_get_raises :
    (constructCfg [] (.yaml [("OPENAI_API_KEY", Value.str "sk"), ("K", Value.str "x")])
        (.yaml [("K", Value.none)]) [] g0).map (fun c => (c.configs.get? "K", c.get "K")) =
      some (some Value.none, .error (.keyNotFound "K")) := by
  rfl

/-- C2 (amended): construction merges environment first, then the primary
YAML file, then the key YAML file, then the override map, each overwriting
(part 1, stated as a literal equation on the merged store); hence a key of
the secondary file that is not overridden and whose secondary value is not
`None` is returned by `get` with the secondary file's value (part 2), and a
key of the primary file absent from the later sources is returned by `get`
with the primary file's value, shadowing the environment (part 3). -/
theorem merge_order_env_primary_key_override :
    (∀ (env es1 es2 opts : List (String × Value)) (g : OpenAIGlobal),
        es1 ≠ [] → es2 ≠ [] →
        construct env (.yaml es1) (.yaml es2) opts g =
          _parse ((((Dict.empty.updateList env).updateList es1).updateList es2).updateList opts)
            g) ∧
    (∀ (env : List (String × Value)) (f1 : FileData) (es2 opts : List (String × Value))
        (g : OpenAIGlobal) (k : String) (v2 : Value) (c : Config) (g' : OpenAIGlobal),
        (k, v2) ∈ es2 → (es2.map Prod.fst).Nodup → k ∉ opts.map Prod.fst →
        v2 ≠ Value.none →
        construct env f1 (.yaml es2) opts g = .ok (c, g') → c.get k = .ok v2) ∧
    (∀ (env es1 : List (String × Value)) (f2 : FileData) (opts : List (String × Value))
        (g : OpenAIGlobal) (k : String) (v1 : Value) (c : Config) (g' : OpenAIGlobal),
        (k, v1) ∈ es1 → (es1.map Prod.fst).Nodup → k ∉ FileData.keys f2 →
        k ∉ opts.map Prod.fst → v1 ≠ Value.none →
        construct env (.yaml es1) f2 opts g = .ok (c, g') → c.get k = .ok v1) := by
  refine ⟨?_, ?_, ?_⟩
  · intro env es1 es2 opts g h1 h2
    obtain ⟨a1, t1, rfl⟩ : ∃ a t, es1 = a :: t := by
      cases es1
      · exact absurd rfl h1
      · exact ⟨_, _, rfl⟩
    obtain ⟨a2, t2, rfl⟩ : ∃ a t, es2 = a :: t := by
      cases es2
      · exact absurd rfl h2
      · exact ⟨_, _, rfl⟩
    cases opts <;> rfl
  · intro env f1 es2 opts g k v2 c g' hmem hnd hopts hv h
    obtain ⟨s, hinit, hparse⟩ := construct_ok_elim _ _ _ _ _ _ _ h
    obtain ⟨_, hconf, _⟩ := _parse_ok_elim _ _ _ _ hparse
    obtain ⟨s1, hm1, hm2⟩ := init_ok_elim _ _ _ _ hinit
    have h2' : es2.isEmpty = false := by
      cases es2
      · cases hmem
      · rfl
    have hmY : mergeYaml s1 (.yaml es2) = .ok (s1.updateList es2) := by
      simp [mergeYaml, h2']
    rw [hmY] at hm2
    injection hm2 with hs2
    have hs : s.get? k = some v2 := by
      rw [← hs2, Dict.get?_updateList, lastVal_of_mem es2 k v2 hnd hmem]
    have hstore : c.configs.get? k = some v2 := by
      rw [hconf]
      by_cases ho : opts.isEmpty
      · simp [ho, hs]
      · simp only [ho, if_false, Bool.false_eq_true]
        rw [Dict.get?_updateList, lastVal_of_not_mem opts k hopts]
        simpa using hs
    simp [Config.get, Dict.pyGet, hstore, hv]
  · intro env es1 f2 opts g k v1 c g' hmem hnd hf2 hopts hv h
    obtain ⟨s, hinit, hparse⟩ := construct_ok_elim _ _ _ _ _ _ _ h
    obtain ⟨_, hconf, _⟩ := _parse_ok_elim _ _ _ _ hparse
    obtain ⟨s1, hm1, hm2⟩ := init_ok_elim _ _ _ _ hinit
    have h1' : es1.isEmpty = false := by
      cases es1
      · cases hmem
      · rfl
    have hmY : mergeYaml (Dict.empty.updateList env) (.yaml es1) =
        .ok ((Dict.empty.updateList env).updateList es1) := by
      simp [mergeYaml, h1']
    rw [hmY] at hm1
    injection hm1 with hs1
    have hsv : s1.get? k = some v1 := by
      rw [← hs1, Dict.get?_updateList, lastVal_of_mem es1 k v1 hnd hmem]
    have hs : s.get? k = some v1 := by
      rw [mergeYaml_get?_of_not_mem s1 s f2 k hm2 hf2]
      exact hsv
    have hstore : c.configs.get? k = some v1 := by
      rw [hconf]
      by_cases ho : opts.isEmpty
      · simp [ho, hs]
      · simp only [ho, if_false, Bool.false_eq_true]
        rw [Dict.get?_updateList, lastVal_of_not_mem opts k hopts]
        simpa using hs
    simp [Config.get, Dict.pyGet, hstore, hv]

/-- C2 witness: `K = "a"` in the primary file and `K = "b"` in the key file:
`get("K")` on the constructed config returns `"b"`, the key file's value. -/
theorem merge_order_env_primary_key_override_witness :
    Config.get (mkConfig c2store .serpapiGoogle .playwright) "K" = .ok (Value.str "b") :=
  merge_order_env_primary_key_override.2.1 []
    (.yaml [("OPENAI_API_KEY", Value.str "sk"), ("K", Value.str "a")])
    [("K", Value.str "b")] [] g0 "K" (Value.str "b")
    (mkConfig c2store .serpapiGoogle .playwright) g0
    (by decide) (by decide) (by decide) (by decide) (by rfl)

/-- C3: `_parse` raises `NotConfiguredException` exactly when both
`OPENAI_API_KEY` and `Anthropic_API_KEY` resolve to a falsy value or to the
placeholder `"YOUR_API_KEY"`; constructing with only the alternate
credential set succeeds; constructing with neither raises. -/
theorem not_configured_iff_both_credentials_missing :
    (∀ (store : Dict) (g : OpenAIGlobal),
        _parse store g = .error .notConfigured ↔
          (credAbsent (store.pyGet "OPENAI_API_KEY") &&
            credAbsent (store.pyGet "Anthropic_API_KEY")) = true) ∧
    constructOk [("Anthropic_API_KEY", Value.str "k")] .absent .absent [] g0 = true ∧
    construct [] .absent .absent [] g0 = .error .notConfigured := by
  refine ⟨?_, rfl, rfl⟩
  intro store g
  constructor
  · intro h
    simp only [_parse] at h
    split at h
    · rename_i hcred
      exact hcred
    · exfalso
      split at h
      · rename_i he
        injection h with h'
        subst h'
        exact coerceSearchEngine_ne_notConfigured _ he
      · split at h
        · rename_i he
          injection h with h'
          subst h'
          exact coerceWebBrowserEngine_ne_notConfigured _ he
        · exact Except.noConfusion h
  · intro h
    simp [_parse, h]

/-- C3 witness: a store with no credential keys at all makes `_parse` raise
`NotConfiguredException`. -/
theorem not_configured_iff_both_credentials_missing_witness :
    _parse [("FOO", Value.str "1")] g0 = .error .notConfigured :=
  (not_configured_iff_both_credentials_missing.1 [("FOO", Value.str "1")] g0).mpr (by decide)

/-- C4 counterexample: after a successful construction the merged store maps
`NULLKEY` to `None` (the key is present), yet `get("NULLKEY")` raises the
key-not-found error instead of returning that raw merged value, refuting the
claim's "for every key present, get returns the raw merged value". -/
theorem get_present_null_value_raises :
    (constructCfg [("OPENAI_API_KEY", Value.str "sk")] .absent .absent
        [("NULLKEY", Value.none)] g0).map
        (fun c => (c.configs.get? "NULLKEY", c.get "NULLKEY")) =
      some (some Value.none, .error (.keyNotFound "NULLKEY")) := by
  rfl

/-- C4 (amended): for a key absent from the merged store, `get` with no
default raises the key-not-found error and `get` with a non-`None` default
returns the default; for a key present with a non-`None` value, `get`
returns the raw merged value (a `None` value or default raises, per the
accessor's null semantics). -/
theorem get_default_semantics_nonnull (c : Config) (k : String) (d v : Value) :
    (c.configs.get? k = Option.none → c.get k = .error (.keyNotFound k)) ∧
    (c.configs.get? k = Option.none → d ≠ Value.none → c.getD k d = .ok d) ∧
    (c.configs.get? k = some v → v ≠ Value.none → c.get k = .ok v) := by
  refine ⟨?_, ?_, ?_⟩
  · intro h
    simp [Config.get, Dict.pyGet, h]
  · intro h hd
    simp [Config.getD, Dict.pyGetD, h, hd]
  · intro h hv
    simp [Config.get, Dict.pyGet, h, hv]

/-- C4 witness: on a store holding only `OPENAI_API_KEY = "sk"`, `get` of a
missing key raises, `get` of a missing key with default `"fallback"` returns
the default, and `get("OPENAI_API_KEY")` returns `"sk"`. -/
theorem get_default_semantics_nonnull_witness :
    Config.get c4cfg "NOT_A_KEY" = .error (.keyNotFound "NOT_A_KEY") ∧
    Config.getD c4cfg "NOT_A_KEY" (Value.str "fallback") = .ok (Value.str "fallback") ∧
    Config.get c4cfg "OPENAI_API_KEY" = .ok (Value.str "sk") :=
  ⟨(get_default_semantics_nonnull c4cfg "NOT_A_KEY" (Value.str "fallback")
      (Value.str "sk")).1 (by rfl),
   (get_default_semantics_nonnull c4cfg "NOT_A_KEY" (Value.str "fallback")
      (Value.str "sk")).2.1 (by rfl) (by decide),
   (get_default_semantics_nonnull c4cfg "OPENAI_API_KEY" (Value.str "fallback")
      (Value.str "sk")).2.2 (by rfl) (by decide)⟩

/-- C5 counterexample: a present but malformed primary YAML file makes
construction fail with the propagated YAML parse error, refuting the claim
that a malformed document is silently skipped. -/
theorem malformed_yaml_fails_construction :
    construct [("OPENAI_API_KEY", Value.str "sk")] .malformed .absent [] g0 =
      .error .yamlScanError := by
  rfl

/-- C5 (amended): during construction a missing YAML path is silently
skipped and a present-but-empty YAML document is silently skipped, but a
present and malformed YAML document raises a parse error that aborts
construction (the source installs no handler around `yaml.safe_load`). -/
theorem yaml_loading_skip_and_error_behavior (s : Dict) (env : List (String × Value))
    (f : FileData) (g : OpenAIGlobal) :
    mergeYaml s .absent = .ok s ∧
    mergeYaml s (.yaml []) = .ok s ∧
    mergeYaml s .malformed = .error .yamlScanError ∧
    construct env .absent f [] g = construct env (.yaml []) f [] g ∧
    construct env .malformed f [] g = .error .yamlScanError := by
  exact ⟨rfl, rfl, rfl, rfl, rfl⟩

/-- C6: `runtime_options` is the raw merged store overlaid with every named
field except the `_configs` holder itself: a name bound by a named field
looks up to the field's resolved value (fields take precedence), and any
other key looks up to its raw store value. The snapshot is a value computed
afresh from the instance on each call; in this pure embedding it shares no
mutable state with the instance or with other calls. -/
theorem runtime_options_overlay :
    (∀ (c : Config) (k : String) (v : Value),
        (k, v) ∈ varsList c → (Config.runtime_options c).get? k = some v) ∧
    (∀ (c : Config) (k : String),
        k ∉ (varsList c).map Prod.fst →
          (Config.runtime_options c).get? k = c.configs.get? k) := by
  constructor
  · intro c k v hmem
    have hnames : (varsList c).map Prod.fst =
        ["global_proxy", "openai_api_key", "anthropic_api_key", "openai_api_base",
         "openai_api_type", "openai_api_version", "openai_api_rpm", "openai_api_model",
         "max_tokens_rsp", "deployment_id", "claude_api_key", "serpapi_api_key",
         "serper_api_key", "google_api_key", "google_cse_id", "search_engine",
         "web_browser_engine", "playwright_browser_type", "selenium_browser_type",
         "long_term_memory", "max_budget", "total_cost", "puppeteer_config", "mmdc",
         "calc_usage", "model_for_researcher_summary", "model_for_researcher_report"] := rfl
    have hnd : ((varsList c).map Prod.fst).Nodup := by
      rw [hnames]
      decide
    rw [Config.runtime_options, Dict.get?_updateList,
      lastVal_of_mem (varsList c) k v hnd hmem]
  · intro c k hk
    rw [Config.runtime_options, Dict.get?_updateList, lastVal_of_not_mem (varsList c) k hk]

/-- C6 witness: on a concrete config the snapshot maps the field name
`openai_api_model` to the resolved field value `"gpt-4"` and keeps the raw
store key `OPENAI_API_KEY`. -/
theorem runtime_options_overlay_witness :
    (Config.runtime_options c6cfg).get? "openai_api_model" = some (Value.str "gpt-4") ∧
    (Config.runtime_options c6cfg).get? "OPENAI_API_KEY" = some (Value.str "sk") :=
  ⟨runtime_options_overlay.1 c6cfg "openai_api_model" (Value.str "gpt-4") (by decide),
   runtime_options_overlay.2 c6cfg "OPENAI_API_KEY" (by decide)⟩

/-- C7: with environment `{OPENAI_API_KEY: "sk-x"}` and no files,
construction succeeds and resolves `openai_api_model = "gpt-4"`,
`openai_api_rpm = 3`, `max_tokens_rsp = 2048`, `max_budget = 10.0`, and
`get("OPENAI_API_KEY")` returns `"sk-x"`. -/
theorem defaults_with_only_openai_key_env :
    (constructCfg [("OPENAI_API_KEY", Value.str "sk-x")] .absent .absent [] g0).map
        (fun c => (c.openai_api_model, c.openai_api_rpm, c.max_tokens_rsp, c.max_budget,
          c.get "OPENAI_API_KEY")) =
      some (Value.str "gpt-4", Value.int 3, Value.int 2048, Value.float 10,
        Except.ok (Value.str "sk-x")) := by
  rfl

/-- C8: on a successful construction the `openai` module state is set to the
resolved proxy (the `OPENAI_PROXY` value, or else the `GLOBAL_PROXY` value)
together with the resolved `openai_api_base` exactly when that resolved
proxy is truthy, and is left untouched when it is not. -/
theorem proxy_side_effect_iff_resolved (store : Dict) (g : OpenAIGlobal) (c : Config)
    (g' : OpenAIGlobal) (h : _parse store g = .ok (c, g')) :
    (pyTruthy (resolvedProxy store) = true →
        g' = { proxy := resolvedProxy store, api_base := store.pyGet "OPENAI_API_BASE" }) ∧
    (pyTruthy (resolvedProxy store) = false → g' = g) := by
  obtain ⟨_, _, hg⟩ := _parse_ok_elim store g c g' h
  constructor
  · intro ht
    rw [hg]
    simp [ht]
  · intro hf
    rw [hg]
    simp [hf]

/-- C8 witness: with `OPENAI_PROXY = "p"` resolved and no API base, the
construction leaves the `openai` globals at proxy `"p"` and base `None`. -/
theorem proxy_side_effect_iff_resolved_witness :
    ({ proxy := Value.str "p", api_base := Value.none } : OpenAIGlobal) =
      { proxy := resolvedProxy c8store, api_base := c8store.pyGet "OPENAI_API_BASE" } :=
  (proxy_side_effect_iff_resolved c8store g0
      (mkConfig c8store .serpapiGoogle .playwright)
      { proxy := Value.str "p", api_base := Value.none } (by rfl)).1 (by rfl)

/-- C9: the public accessor raises its key-not-found error exactly when the
looked-up result is `None`: a key present in the store but mapped to `None`
still raises (with or without a default), and an explicit `None` default
behaves identically to passing no default. -/
theorem get_raises_iff_null_value (c : Config) (k : String) (d : Value) :
    (c.get k = .error (.keyNotFound k) ↔ c.configs.pyGet k = Value.none) ∧
    c.getD k Value.none = c.get k ∧
    (c.configs.get? k = some Value.none → c.get k = .error (.keyNotFound k)) ∧
    (c.configs.get? k = some Value.none → c.getD k d = .error (.keyNotFound k)) := by
  refine ⟨?_, rfl, ?_, ?_⟩
  · simp only [Config.get]
    split_ifs with hv
    · simp [hv]
    · simp [hv]
  · intro h
    simp [Config.get, Dict.pyGet, h]
  · intro h
    simp [Config.getD, Dict.pyGetD, h]

/-- C9 witness: `NULLKEY` is present in the store mapped to `None`, and
`get("NULLKEY")` raises even with a non-`None` default supplied. -/
theorem get_raises_iff_null_value_witness :
    Config.get c9cfg "NULLKEY" = .error (.keyNotFound "NULLKEY") ∧
    Config.getD c9cfg "NULLKEY" (Value.str "d") = .error (.keyNotFound "NULLKEY") :=
  ⟨(get_raises_iff_null_value c9cfg "NULLKEY" (Value.str "d")).2.2.1 (by rfl),
   (get_raises_iff_null_value c9cfg "NULLKEY" (Value.str "d")).2.2.2 (by rfl)⟩

/-- C10: when the credentials check passes but the store maps
`SEARCH_ENGINE` (respectively `WEB_BROWSER_ENGINE`) to a value that is not
one of the enum's known values, `_parse` fails with the error raised by that
enum coercion — it does not fall back to the default engine. -/
theorem invalid_engine_value_fails_construction :
    (∀ (store : Dict) (g : OpenAIGlobal) (v : Value),
        store.get? "SEARCH_ENGINE" = some v → validSearchValue v = false →
        (credAbsent (store.pyGet "OPENAI_API_KEY") &&
          credAbsent (store.pyGet "Anthropic_API_KEY")) = false →
        _parse store g = .error (.invalidSearchEngine v)) ∧
    (∀ (store : Dict) (g : OpenAIGlobal) (w : Value) (se : SearchEngineType),
        store.get? "WEB_BROWSER_ENGINE" = some w → validBrowserValue w = false →
        coerceSearchEngine (store.get? "SEARCH_ENGINE") = .ok se →
        (credAbsent (store.pyGet "OPENAI_API_KEY") &&
          credAbsent (store.pyGet "Anthropic_API_KEY")) = false →
        _parse store g = .error (.invalidWebBrowserEngine w)) := by
  constructor
  · intro store g v hse hval hcred
    have hc : coerceSearchEngine (store.get? "SEARCH_ENGINE") =
        .error (.invalidSearchEngine v) := by
      rw [hse]
      exact coerceSearchEngineValue_of_invalid v hval
    simp [_parse, hcred, hc]
  · intro store g w se hwe hval hse hcred
    have hc2 : coerceWebBrowserEngine (store.get? "WEB_BROWSER_ENGINE") =
        .error (.invalidWebBrowserEngine w) := by
      rw [hwe]
      exact coerceWebBrowserEngineValue_of_invalid w hval
    simp [_parse, hcred, hse, hc2]

/-- C10 witness: `SEARCH_ENGINE = "bogus"` with a valid credential makes
`_parse` fail with the search-engine coercion error; and with a present,
valid `SEARCH_ENGINE = "serpapi"` but `WEB_BROWSER_ENGINE = "ie"`, `_parse`
fails with the web-browser coercion error. -/
theorem invalid_engine_value_fails_construction_witness :
    _parse [("OPENAI_API_KEY", Value.str "sk"), ("SEARCH_ENGINE", Value.str "bogus")] g0 =
      .error (.invalidSearchEngine (Value.str "bogus")) ∧
    _parse [("OPENAI_API_KEY", Value.str "sk"), ("SEARCH_ENGINE", Value.str "serpapi"),
        ("WEB_BROWSER_ENGINE", Value.str "ie")] g0 =
      .error (.invalidWebBrowserEngine (Value.str "ie")) :=
  ⟨invalid_engine_value_fails_construction.1
      [("OPENAI_API_KEY", Value.str "sk"), ("SEARCH_ENGINE", Value.str "bogus")] g0
      (Value.str "bogus") (by rfl) (by rfl) (by rfl),
   invalid_engine_value_fails_construction.2
      [("OPENAI_API_KEY", Value.str "sk"), ("SEARCH_ENGINE", Value.str "serpapi"),
        ("WEB_BROWSER_ENGINE", Value.str "ie")] g0
      (Value.str "ie") SearchEngineType.serpapiGoogle (by rfl) (by rfl) (by rfl) (by rfl)⟩

end MetaGPTConfig
